import Mathlib

/-!
# Token Lifecycle Manager — verification of the OmniHub auth subsystem

Shallow embedding of the server-side refresh-token lifecycle
(`AuthService` in the NestJS backend: `generateAccessToken`,
`generateRefreshToken`, `generateTokenPair`, `refreshTokens`, `logout`,
`logoutAll`, `getActiveSessions`) and of the client-side token
coordinator (`tokenManager`, `refreshAccessToken`, `apiRequest` in the
frontend API utility module).

Conventions of the embedding:
* timestamps are `Nat` milliseconds on the server (`Date.now()`), `Int`
  milliseconds on the client (where `expiresIn - 30` may go negative);
* each `await this.db...` statement of the source is one atomic step on
  an explicit `Db` value (a list of rows per table, insertion order kept,
  mirroring the `refresh_tokens` table of migration 003);
* `uuidv4()` results are passed in as explicit `String` arguments (the
  source draws them fresh; freshness/uniqueness appears as hypotheses
  where a theorem needs it);
* a thrown `UnauthorizedException(msg)` is `Except.error msg`; fallible
  operations return the (possibly updated) `Db` together with the
  `Except` result, so "store unchanged on failure" is expressible;
* `CURRENT_TIMESTAMP` used by the SQL statements and `Date.now()` used
  by the service are identified as the single `now` argument.
-/

namespace OmniHub

/-- A row of the `users` table (only the columns the token lifecycle reads). -/
structure UserRow where
  id : String
  email : String
deriving Repr, DecidableEq

/-- A row of the `refresh_tokens` table (migration `003_add_user_columns.sql`):
`id TEXT PRIMARY KEY, user_id, token TEXT UNIQUE, expires_at, created_at
DEFAULT NOW(), revoked_at NULL, replaced_by_token NULL, user_agent, ip_address`. -/
structure RefreshTokenRow where
  id : String
  user_id : String
  token : String
  expires_at : Nat
  created_at : Nat
  revoked_at : Option Nat
  replaced_by_token : Option String
  user_agent : Option String
  ip_address : Option String
deriving Repr, DecidableEq

/-- The relational store as seen by the token lifecycle. -/
structure Db where
  users : List UserRow
  refresh_tokens : List RefreshTokenRow
deriving Repr, DecidableEq

/-- The `jwt.*` entries served by Nest's `ConfigService`; `none` models a key
absent from `configuration.ts` (the repository's `configuration.ts` defines
none of these three keys, so the `||` defaults in `AuthService` apply). -/
structure ConfigState where
  accessTokenExpiry : Option String
  accessTokenExpirySeconds : Option Nat
  refreshTokenExpiryMs : Option Nat
deriving Repr, DecidableEq

/-- The configuration shipped in `src/config/configuration.ts`: its `jwt`
section has only `secret` and `expiresIn`, none of the keys read by
`AuthService`'s token helpers. -/
def repoConfig : ConfigState :=
  { accessTokenExpiry := none
    accessTokenExpirySeconds := none
    refreshTokenExpiryMs := none }

/-- Reads `this.configService.get('jwt.refreshTokenExpiryMs') || 7*24*60*60*1000`. -/
def refreshMs (cfg : ConfigState) : Nat :=
  cfg.refreshTokenExpiryMs.getD (7 * 24 * 60 * 60 * 1000)

/-- Milliseconds denoted by one duration unit of the `ms` package grammar
(used by `jsonwebtoken` to interpret a string `expiresIn`). -/
def unitMs : Char → Option Nat
  | 's' => some 1000
  | 'm' => some (60 * 1000)
  | 'h' => some (60 * 60 * 1000)
  | 'd' => some (24 * 60 * 60 * 1000)
  | 'w' => some (7 * 24 * 60 * 60 * 1000)
  | _ => none

/-- Numeric value of a non-empty digit string. -/
def digitsVal : List Char → Option Nat
  | [] => none
  | cs =>
    if cs.all Char.isDigit then
      some (cs.foldl (fun acc c => acc * 10 + (c.toNat - '0'.toNat)) 0)
    else none

/-- Duration string to milliseconds, `ms`-package style: `"15m"`, `"7d"`, ...;
a bare number is milliseconds. -/
def parseDuration (s : String) : Option Nat :=
  let cs := s.data
  let digits := cs.takeWhile Char.isDigit
  let rest := cs.dropWhile Char.isDigit
  match digitsVal digits, rest with
  | some n, [] => some n
  | some n, [u] => (unitMs u).map (n * ·)
  | _, _ => none

/-- The payload of the JWT produced by `jwt.sign(payload, secret,
{ expiresIn })`: `jsonwebtoken` stamps `iat = floor(Date.now()/1000)` and
`exp = iat + timespan(expiresIn)` (seconds). The signature itself is
cryptographic and outside the embedding. -/
structure AccessToken where
  userId : String
  email : String
  iat : Nat
  exp : Nat
deriving Repr, DecidableEq

/-- Model of `AuthService.generateAccessToken`: signs `{userId, email}` with
`expiresIn = config 'jwt.accessTokenExpiry' || '15m'`. -/
def generateAccessToken (cfg : ConfigState) (userId email : String) (now : Nat) :
    AccessToken :=
  let expiresInStr := cfg.accessTokenExpiry.getD "15m"
  let ttlSeconds := (parseDuration expiresInStr).getD 0 / 1000
  { userId := userId, email := email, iat := now / 1000, exp := now / 1000 + ttlSeconds }

/-- Model of `AuthService.generateRefreshToken`: inserts one row
`(id, user_id, token, expires_at = now + refreshTokenExpiryMs, user_agent,
ip_address)` into `refresh_tokens` (with `created_at DEFAULT NOW()`),
returning the opaque token value. `tokenValue` and `rowId` stand for the two
fresh `uuidv4()` draws. -/
def generateRefreshToken (db : Db) (cfg : ConfigState) (now : Nat)
    (userId tokenValue rowId : String) (ua ip : Option String) : Db :=
  let row : RefreshTokenRow :=
    { id := rowId
      user_id := userId
      token := tokenValue
      expires_at := now + refreshMs cfg
      created_at := now
      revoked_at := none
      replaced_by_token := none
      user_agent := ua
      ip_address := ip }
  { db with refresh_tokens := db.refresh_tokens ++ [row] }

/-- Model of `AuthService.getTokenExpiryInfo`: `(accessTokenExpiresIn,
refreshTokenExpiresIn)` = `(config 'jwt.accessTokenExpirySeconds' || 900,
floor((config 'jwt.refreshTokenExpiryMs' || 7d) / 1000))`. -/
def getTokenExpiryInfo (cfg : ConfigState) : Nat × Nat :=
  (cfg.accessTokenExpirySeconds.getD 900, refreshMs cfg / 1000)

/-- The token-pair response shape shared by login/register/google/refresh. -/
structure TokenPairOut where
  accessToken : AccessToken
  refreshToken : String
  expiresIn : Nat
  refreshExpiresIn : Nat
deriving Repr, DecidableEq

/-- Model of `AuthService.generateTokenPair`: mints the access token, persists one new
refresh token, and reports the configured TTLs. -/
def generateTokenPair (db : Db) (cfg : ConfigState) (now : Nat)
    (userId email tokenValue rowId : String) (ua ip : Option String) :
    Db × TokenPairOut :=
  let accessToken := generateAccessToken cfg userId email now
  let db' := generateRefreshToken db cfg now userId tokenValue rowId ua ip
  let info := getTokenExpiryInfo cfg
  (db', { accessToken := accessToken
          refreshToken := tokenValue
          expiresIn := info.1
          refreshExpiresIn := info.2 })

/-- The query `SELECT * FROM refresh_tokens WHERE token = ? AND revoked_at IS NULL`
(`getOne`: first matching row in table order). -/
def findActive (db : Db) (presented : String) : Option RefreshTokenRow :=
  db.refresh_tokens.find? (fun r => r.token == presented && r.revoked_at.isNone)

/-- The query `SELECT id, email FROM users WHERE id = ?`. -/
def findUser (db : Db) (userId : String) : Option UserRow :=
  db.users.find? (fun u => u.id == userId)

/-- The row update performed by
`UPDATE refresh_tokens SET revoked_at = CURRENT_TIMESTAMP,
replaced_by_token = ? WHERE id = ?` — note: conditioned on `id` only, not on
the row still being unrevoked. -/
def revokeById (rows : List RefreshTokenRow) (now : Nat) (targetId ntok : String) :
    List RefreshTokenRow :=
  rows.map fun r =>
    if r.id == targetId then
      { r with revoked_at := some now, replaced_by_token := some ntok }
    else r

/-- Model of `AuthService.refreshTokens`, lines 398–457. `ntok` and `nid` are the two
fresh `uuidv4()` draws (`newRefreshToken` and the new row's `id`). Every
`throw` happens before any write, so error cases return the incoming `db`. -/
def refreshTokens (db : Db) (cfg : ConfigState) (now : Nat)
    (presented ntok nid : String) (ua ip : Option String) :
    Db × Except String TokenPairOut :=
  match findActive db presented with
  | none => (db, .error "Invalid refresh token")
  | some stored =>
    if stored.expires_at < now then (db, .error "Refresh token expired")
    else
      match findUser db stored.user_id with
      | none => (db, .error "User not found")
      | some user =>
        let rows := revokeById db.refresh_tokens now stored.id ntok
        let newRow : RefreshTokenRow :=
          { id := nid
            user_id := user.id
            token := ntok
            expires_at := now + refreshMs cfg
            created_at := now
            revoked_at := none
            replaced_by_token := none
            user_agent := ua
            ip_address := ip }
        let accessToken := generateAccessToken cfg user.id user.email now
        let info := getTokenExpiryInfo cfg
        ({ db with refresh_tokens := rows ++ [newRow] },
         .ok { accessToken := accessToken
               refreshToken := ntok
               expiresIn := info.1
               refreshExpiresIn := info.2 })

/-- The `{success, message}` body returned by logout endpoints. -/
structure LogoutOut where
  success : Bool
  message : String
deriving Repr, DecidableEq

/-- Model of `AuthService.logout`: `UPDATE refresh_tokens SET revoked_at =
CURRENT_TIMESTAMP WHERE token = ? AND revoked_at IS NULL`; always returns
`{success: true}` (the update's row count is ignored). -/
def logout (db : Db) (now : Nat) (presented : String) : Db × LogoutOut :=
  ({ db with
      refresh_tokens := db.refresh_tokens.map fun r =>
        if r.token == presented && r.revoked_at.isNone then
          { r with revoked_at := some now }
        else r },
   { success := true, message := "Logged out successfully" })

/-- Model of `AuthService.logoutAll`: `UPDATE refresh_tokens SET revoked_at =
CURRENT_TIMESTAMP WHERE user_id = ? AND revoked_at IS NULL`. -/
def logoutAll (db : Db) (now : Nat) (userId : String) : Db × LogoutOut :=
  ({ db with
      refresh_tokens := db.refresh_tokens.map fun r =>
        if r.user_id == userId && r.revoked_at.isNone then
          { r with revoked_at := some now }
        else r },
   { success := true, message := "Logged out from all devices successfully" })

/-- One element of the `GET /auth/sessions` response: the mapped projection
`{id, createdAt, expiresAt, userAgent, ipAddress}` — the `token` column is
not selected. -/
structure SessionOut where
  id : String
  createdAt : Nat
  expiresAt : Nat
  userAgent : Option String
  ipAddress : Option String
deriving Repr, DecidableEq

/-- The projection applied by `getActiveSessions` to each selected row. -/
def toSession (r : RefreshTokenRow) : SessionOut :=
  { id := r.id
    createdAt := r.created_at
    expiresAt := r.expires_at
    userAgent := r.user_agent
    ipAddress := r.ip_address }

/-- Insert into a list already sorted by `created_at` descending
(model of the SQL `ORDER BY created_at DESC`). -/
def insertByCreatedDesc (r : RefreshTokenRow) :
    List RefreshTokenRow → List RefreshTokenRow
  | [] => [r]
  | x :: xs =>
    if x.created_at ≤ r.created_at then r :: x :: xs
    else x :: insertByCreatedDesc r xs

/-- Sort by `created_at` descending. -/
def sortByCreatedDesc : List RefreshTokenRow → List RefreshTokenRow
  | [] => []
  | x :: xs => insertByCreatedDesc x (sortByCreatedDesc xs)

/-- The `WHERE` clause of `getActiveSessions`:
`user_id = ? AND revoked_at IS NULL AND expires_at > CURRENT_TIMESTAMP`. -/
def sessionActiveFor (userId : String) (now : Nat) (r : RefreshTokenRow) : Bool :=
  r.user_id == userId && r.revoked_at.isNone && decide (now < r.expires_at)

/-- Model of `AuthService.getActiveSessions`, lines 486–508. -/
def getActiveSessions (db : Db) (now : Nat) (userId : String) : List SessionOut :=
  (sortByCreatedDesc (db.refresh_tokens.filter (sessionActiveFor userId now))).map
    toSession

/-!
## Interleaving decomposition of `refreshTokens`

Each `await this.db...` in `refreshTokens` is a separate round trip, so a
concurrent second call can interleave between them. The read phase covers
the token `SELECT`, the expiry check and the user `SELECT` (no writes); the
write phase covers the `UPDATE` (by `id` only) and the `INSERT`.
`refreshTokens_phases` proves the two phases compose to the atomic function,
so theorems about interleavings speak about the code, not a paraphrase.
-/

/-- Read phase of `refreshTokens` (lines 398–428): validation only. -/
def refreshReadPhase (db : Db) (now : Nat) (presented : String) :
    Except String (RefreshTokenRow × UserRow) :=
  match findActive db presented with
  | none => .error "Invalid refresh token"
  | some stored =>
    if stored.expires_at < now then .error "Refresh token expired"
    else
      match findUser db stored.user_id with
      | none => .error "User not found"
      | some user => .ok (stored, user)

/-- Write phase of `refreshTokens` (lines 430–445): revoke the row found by
the read phase (matching on `id` only — no `revoked_at IS NULL` recheck) and
insert the successor row. -/
def refreshWritePhase (db : Db) (cfg : ConfigState) (now : Nat)
    (stored : RefreshTokenRow) (user : UserRow) (ntok nid : String)
    (ua ip : Option String) : Db :=
  let rows := revokeById db.refresh_tokens now stored.id ntok
  let newRow : RefreshTokenRow :=
    { id := nid
      user_id := user.id
      token := ntok
      expires_at := now + refreshMs cfg
      created_at := now
      revoked_at := none
      replaced_by_token := none
      user_agent := ua
      ip_address := ip }
  { db with refresh_tokens := rows ++ [newRow] }

/-- The atomic `refreshTokens` is exactly read phase then write phase. -/
theorem refreshTokens_phases (db : Db) (cfg : ConfigState) (now : Nat)
    (presented ntok nid : String) (ua ip : Option String) :
    refreshTokens db cfg now presented ntok nid ua ip =
      match refreshReadPhase db now presented with
      | .error e => (db, .error e)
      | .ok (stored, user) =>
        (refreshWritePhase db cfg now stored user ntok nid ua ip,
         .ok { accessToken := generateAccessToken cfg user.id user.email now
               refreshToken := ntok
               expiresIn := (getTokenExpiryInfo cfg).1
               refreshExpiresIn := (getTokenExpiryInfo cfg).2 }) := by
  unfold refreshTokens refreshReadPhase refreshWritePhase
  cases findActive db presented with
  | none => rfl
  | some stored =>
    dsimp only
    split
    · rfl
    · cases findUser db stored.user_id with
      | none => rfl
      | some user => rfl

/-- Number of unrevoked rows in the store. -/
def countActive (db : Db) : Nat :=
  (db.refresh_tokens.filter (fun r => r.revoked_at.isNone)).length

/-!
## Client-side coordinator

Model of the frontend API utility module: `tokenManager`, the module-level
single-flight state (`isRefreshing`, `refreshPromise`), `refreshAccessToken`
and `apiRequest`. Client timestamps are `Int` milliseconds (JS numbers:
`expiresIn - 30` may be negative). `localStorage` is the `ClientStorage`
record; an absent key is `none`.
-/

/-- The four `localStorage` keys written by `tokenManager`:
`accessToken`, `refreshToken`, `tokenExpiry`, and the legacy `userToken`. -/
structure ClientStorage where
  accessToken : Option String
  refreshToken : Option String
  tokenExpiry : Option Int
  legacyToken : Option String
deriving Repr, DecidableEq

/-- Model of `tokenManager.getAccessToken`: canonical key, falling back to the legacy
`userToken` key. -/
def getAccessToken (s : ClientStorage) : Option String :=
  s.accessToken.or s.legacyToken

/-- Model of `tokenManager.getRefreshToken`. -/
def getRefreshToken (s : ClientStorage) : Option String :=
  s.refreshToken

/-- Model of `tokenManager.setTokens`: writes the canonical keys and the legacy alias;
when `expiresIn` is truthy (present and non-zero), stores
`Date.now() + (expiresIn - 30) * 1000` as the proactive-expiry estimate. -/
def setTokens (s : ClientStorage) (access refresh : String)
    (expiresIn : Option Nat) (now : Int) : ClientStorage :=
  let s1 : ClientStorage :=
    { s with
        accessToken := some access
        refreshToken := some refresh
        legacyToken := some access }
  match expiresIn with
  | some n =>
    if n ≠ 0 then { s1 with tokenExpiry := some (now + ((n : Int) - 30) * 1000) }
    else s1
  | none => s1

/-- Model of `tokenManager.clearTokens`: removes all four keys. -/
def clearTokens (_s : ClientStorage) : ClientStorage :=
  { accessToken := none, refreshToken := none, tokenExpiry := none,
    legacyToken := none }

/-- Model of `tokenManager.isTokenExpired`: `true` when no stored estimate, else
`Date.now() >= tokenExpiry`. -/
def isTokenExpired (s : ClientStorage) (now : Int) : Bool :=
  match s.tokenExpiry with
  | none => true
  | some e => e ≤ now

/-- Model of `tokenManager.hasTokens`. -/
def hasTokens (s : ClientStorage) : Bool :=
  (getAccessToken s).isSome && ((getRefreshToken s).isSome || s.legacyToken.isSome)

/-- Outcome of the `fetch` to `POST /auth/refresh`: a 2xx with a token pair,
a non-2xx response, or a thrown network error. -/
inductive RefreshNetResult where
  | ok (access refresh : String) (expiresIn : Option Nat)
  | httpFail
  | netThrow
deriving Repr, DecidableEq

/-- Whether the refresh network call succeeded. -/
def RefreshNetResult.succeeded : RefreshNetResult → Bool
  | .ok _ _ _ => true
  | .httpFail => false
  | .netThrow => false

/-- Effect of the body of `refreshAccessToken`'s async closure on storage:
on 2xx it stores the new pair; on a non-2xx response or a thrown error it
clears all tokens; the returned `Bool` is what every waiter receives. -/
def runRefreshNet (res : RefreshNetResult) (s : ClientStorage) (now : Int) :
    Bool × ClientStorage :=
  match res with
  | .ok a r e => (true, setTokens s a r e now)
  | .httpFail => (false, clearTokens s)
  | .netThrow => (false, clearTokens s)

/-- One non-coalesced run of `refreshAccessToken` (the path taken when no
refresh is in flight): bail out with `false` if no refresh token is cached,
else perform the network call. -/
def refreshOnce (res : RefreshNetResult) (s : ClientStorage) (now : Int) :
    Bool × ClientStorage :=
  match getRefreshToken s with
  | none => (false, s)
  | some _ => runRefreshNet res s now

/-!
## Single-flight coordination state

The module-level `let isRefreshing = false; let refreshPromise = null` pair
plus an instrumentation counter of network refresh calls. JavaScript's event
loop runs `refreshAccessToken` synchronously from entry up to the first
`await` inside the async closure, so the check-join / set-flag-and-start
prologue is one atomic step (`enterRefresh`); promises are identified by a
serial number so "every caller awaits the *same* outcome" is expressible.
The `finally` block is `settleRefresh`, executed for every outcome.
-/

/-- Coordination state: the two module-level variables, a counter of
`fetch('/auth/refresh')` calls issued, and a serial supply for promise
identities. -/
structure CoordState where
  isRefreshing : Bool
  refreshPromise : Option Nat
  networkCalls : Nat
  nextId : Nat
deriving Repr, DecidableEq

/-- The synchronous prologue of `refreshAccessToken`: join the in-flight
promise if one exists; bail out (`none` — the caller gets `false` without
touching the flags) if no refresh token is cached; otherwise set the flag,
publish a fresh promise and issue the one network call. -/
def enterRefresh (hasToken : Bool) (s : CoordState) : CoordState × Option Nat :=
  if s.isRefreshing && s.refreshPromise.isSome then (s, s.refreshPromise)
  else if !hasToken then (s, none)
  else
    ({ isRefreshing := true
       refreshPromise := some s.nextId
       networkCalls := s.networkCalls + 1
       nextId := s.nextId + 1 },
     some s.nextId)

/-- The `finally` block: clear the flag and the shared promise. -/
def settleRefresh (s : CoordState) : CoordState :=
  { s with isRefreshing := false, refreshPromise := none }

/-- Completion of the in-flight refresh: the body's storage effect (which
depends on the outcome) together with the unconditional `finally` cleanup. -/
def completeRefresh (res : RefreshNetResult) (st : ClientStorage) (now : Int)
    (c : CoordState) : (Bool × ClientStorage) × CoordState :=
  (runRefreshNet res st now, settleRefresh c)

/-- Runs `k` callers reaching `refreshAccessToken` (each with a cached refresh token)
before the in-flight call completes; returns the final coordination state and
the promise each caller awaits. -/
def runEnter : Nat → CoordState → CoordState × List (Option Nat)
  | 0, s => (s, [])
  | k + 1, s =>
    let step := enterRefresh true s
    let rest := runEnter k step.1
    (rest.1, step.2 :: rest.2)

/-!
## `apiRequest`

The `_retry`-flag recursion of `apiRequest` is unrolled: `apiSendRetry` is
the `_retry = true` invocation (proactive-refresh check and the 401-refresh
branch are both disabled by `!_retry`), `apiRequestM` the initial
`_retry = false` invocation with `auth = true`. Response bodies are
abstracted away (an unparsable/empty body yields the default message
`'Request failed'`); the status of the `n`-th attempt is `env.status n`.
The trace records the bearer token attached to each attempt actually sent.
-/

/-- Truth of `response.ok`: status in [200, 300). -/
def respOk (status : Nat) : Bool :=
  200 ≤ status && status < 300

/-- Environment of one `apiRequest` call: what the network would answer. -/
structure ApiEnv where
  refreshResult : RefreshNetResult
  status : Nat → Nat

/-- Result surfaced to the caller: the parsed data of a 2xx response
(abstracted to the token that authorized it), or a thrown
`ApiError(message, status)`. -/
inductive ApiResult where
  | success (token : Option String)
  | apiError (message : String) (status : Nat)
deriving Repr, DecidableEq

/-- Caller-visible result plus the list of bearer tokens attached to each
outbound attempt of this call, in order. -/
structure ApiTrace where
  result : ApiResult
  sent : List (Option String)
deriving Repr, DecidableEq

/-- The `_retry = true` invocation: attach the current token, send
(attempt index 1); the 401-refresh branch is skipped (`!_retry` is false),
so any non-2xx — a second consecutive 401 included — throws. -/
def apiSendRetry (s : ClientStorage) (env : ApiEnv) : ApiTrace :=
  let tk := getAccessToken s
  let st := env.status 1
  if respOk st then { result := .success tk, sent := [tk] }
  else { result := .apiError "Request failed" st, sent := [tk] }

/-- Attach the current token, send attempt 0, and handle the response
(the part of the `_retry = false` invocation after the proactive check):
on a 401 first response, one coordinated refresh and at most one retry
(`apiSendRetry`); a failed refresh throws
`'Session expired. Please login again.'`. -/
def apiRequestSend (s : ClientStorage) (now : Int) (env : ApiEnv) :
    ApiTrace × ClientStorage :=
  let tk := getAccessToken s
  let st := env.status 0
  if st == 401 then
    let re := refreshOnce env.refreshResult s now
    if re.1 then
      let t := apiSendRetry re.2 env
      ({ result := t.result, sent := tk :: t.sent }, re.2)
    else
      ({ result := .apiError "Session expired. Please login again." 401
         sent := [tk] },
       re.2)
  else if respOk st then ({ result := .success tk, sent := [tk] }, s)
  else ({ result := .apiError "Request failed" st, sent := [tk] }, s)

/-- The initial (`_retry = false`, `auth = true`) invocation of `apiRequest`:
proactive refresh when tokens are cached but (estimated) expired — failure
there throws without sending anything — then `apiRequestSend`. -/
def apiRequestM (s : ClientStorage) (now : Int) (env : ApiEnv) :
    ApiTrace × ClientStorage :=
  if hasTokens s && isTokenExpired s now then
    let pro := refreshOnce env.refreshResult s now
    if pro.1 then apiRequestSend pro.2 now env
    else ({ result := .apiError "Session expired. Please login again." 401
            sent := [] },
          pro.2)
  else apiRequestSend s now env

/-!
## Rotation chains

`N` sequential successful refreshes starting from a single stored token
`tok 0` (row id `rid 0`) owned by one user. `tok`/`rid` supply the
`uuidv4()` draws of each step: step `k+1` presents `tok k` and draws the new
token value `tok (k+1)` and the new row id `rid (k+1)`. All refreshes are
executed at the same instant `now` (the timestamps are immaterial to the
chain structure; `e0` is the initial token's expiry).
-/

/-- Did a `refreshTokens` call succeed? -/
def refreshSucceeded (e : Except String TokenPairOut) : Bool :=
  match e with
  | .ok _ => true
  | .error _ => false

section Chain

variable (uid email : String) (tok rid : Nat → String) (e0 now : Nat)
  (cfg : ConfigState) (ua ip : Option String)

/-- The single active token of the chain after `k` successful refreshes:
for `k = 0` the originally issued row, else the row inserted by the `k`-th
refresh. -/
def chainActive (k : Nat) : RefreshTokenRow :=
  { id := rid k
    user_id := uid
    token := tok k
    expires_at := if k = 0 then e0 else now + refreshMs cfg
    created_at := if k = 0 then 0 else now
    revoked_at := none
    replaced_by_token := none
    user_agent := ua
    ip_address := ip }

/-- The `k`-th chain token once the `(k+1)`-st refresh has rotated it away:
revoked, with `replaced_by_token` pointing at the successor's token value. -/
def chainRevoked (k : Nat) : RefreshTokenRow :=
  { chainActive uid tok rid e0 now cfg ua ip k with
      revoked_at := some now
      replaced_by_token := some (tok (k + 1)) }

/-- The store after `k` successful refreshes of the chain. -/
def chainDb (k : Nat) : Db :=
  { users := [{ id := uid, email := email }]
    refresh_tokens :=
      (List.range k).map (chainRevoked uid tok rid e0 now cfg ua ip) ++
        [chainActive uid tok rid e0 now cfg ua ip k] }

/-- Run `k` sequential refreshes from the initial store, tracking whether
every one of them succeeded. -/
def chainRun : Nat → Db × Bool
  | 0 => (chainDb uid email tok rid e0 now cfg ua ip 0, true)
  | k + 1 =>
    let prev := chainRun k
    let step := refreshTokens prev.1 cfg now (tok k) (tok (k + 1)) (rid (k + 1)) ua ip
    (step.1, prev.2 && refreshSucceeded step.2)

end Chain

/-- In the store after `k` refreshes the presented token `tok k` matches the
single unrevoked chain row. -/
theorem chain_findActive (uid email : String) (tok rid : Nat → String)
    (e0 now : Nat) (cfg : ConfigState) (ua ip : Option String) (k : Nat) :
    findActive (chainDb uid email tok rid e0 now cfg ua ip k) (tok k) =
      some (chainActive uid tok rid e0 now cfg ua ip k) := by
  unfold findActive chainDb
  rw [List.find?_append]
  have h1 : ((List.range k).map (chainRevoked uid tok rid e0 now cfg ua ip)).find?
      (fun r => r.token == tok k && r.revoked_at.isNone) = none := by
    rw [List.find?_eq_none]
    intro x hx
    rcases List.mem_map.1 hx with ⟨i, _, rfl⟩
    simp [chainRevoked]
  rw [h1, Option.none_or]
  simp [List.find?, chainActive]

/-- One chain step: refreshing `tok k` in the store after `k` refreshes
succeeds and produces exactly the store after `k + 1` refreshes, provided the
row ids in play are pairwise distinct and the initial token has not expired. -/
theorem chainStep (uid email : String) (tok rid : Nat → String) (e0 now : Nat)
    (cfg : ConfigState) (ua ip : Option String) (k N : Nat) (hkN : k < N)
    (hrid : ∀ i, i ≤ N → ∀ j, j ≤ N → i ≠ j → rid i ≠ rid j)
    (hexp : ¬ e0 < now) :
    refreshTokens (chainDb uid email tok rid e0 now cfg ua ip k) cfg now
        (tok k) (tok (k + 1)) (rid (k + 1)) ua ip =
      (chainDb uid email tok rid e0 now cfg ua ip (k + 1),
       .ok { accessToken := generateAccessToken cfg uid email now
             refreshToken := tok (k + 1)
             expiresIn := (getTokenExpiryInfo cfg).1
             refreshExpiresIn := (getTokenExpiryInfo cfg).2 }) := by
  have hnotexp : ¬ (chainActive uid tok rid e0 now cfg ua ip k).expires_at < now := by
    cases k with
    | zero => simpa [chainActive] using hexp
    | succ m => simp [chainActive]
  have huser :
      findUser (chainDb uid email tok rid e0 now cfg ua ip k)
          (chainActive uid tok rid e0 now cfg ua ip k).user_id =
        some { id := uid, email := email } := by
    simp [findUser, chainDb, chainActive, List.find?]
  unfold refreshTokens
  rw [chain_findActive]
  dsimp only
  rw [if_neg hnotexp, huser]
  dsimp only
  have hrows :
      revokeById (chainDb uid email tok rid e0 now cfg ua ip k).refresh_tokens now
          (chainActive uid tok rid e0 now cfg ua ip k).id (tok (k + 1)) =
        (List.range k).map (chainRevoked uid tok rid e0 now cfg ua ip) ++
          [chainRevoked uid tok rid e0 now cfg ua ip k] := by
    unfold revokeById chainDb
    rw [List.map_append, List.map_map]
    congr 1
    · apply List.map_congr_left
      intro i hi
      have hik : i < k := List.mem_range.1 hi
      have hne : rid i ≠ rid k :=
        hrid i (Nat.le_of_lt (Nat.lt_of_lt_of_le hik (Nat.le_of_lt hkN))) k
          (Nat.le_of_lt hkN) (Nat.ne_of_lt hik)
      simp [Function.comp, chainRevoked, chainActive, hne]
    · simp [chainRevoked, chainActive]
  rw [hrows]
  unfold chainDb
  rw [List.range_succ, List.map_append, List.append_assoc]
  simp [chainActive, chainDb]

/-- Characterization of `chainRun`: every step up to `N` succeeds and the store
after `k` steps is `chainDb k`. -/
theorem chainRun_eq (uid email : String) (tok rid : Nat → String) (e0 now : Nat)
    (cfg : ConfigState) (ua ip : Option String) (N : Nat)
    (hrid : ∀ i, i ≤ N → ∀ j, j ≤ N → i ≠ j → rid i ≠ rid j)
    (hexp : ¬ e0 < now) :
    ∀ k, k ≤ N →
      chainRun uid email tok rid e0 now cfg ua ip k =
        (chainDb uid email tok rid e0 now cfg ua ip k, true) := by
  intro k
  induction k with
  | zero => intro _; rfl
  | succ k ih =>
    intro hk
    have hprev := ih (Nat.le_of_succ_le hk)
    show chainRun uid email tok rid e0 now cfg ua ip (k + 1) = _
    unfold chainRun
    rw [hprev]
    dsimp only
    rw [chainStep uid email tok rid e0 now cfg ua ip k N
      (Nat.lt_of_succ_le hk) hrid hexp]
    simp [refreshSucceeded]

/-!
## Helper lemmas: sorting, logout, error paths
-/

/-- Inserting permutes: the model of `ORDER BY` reorders, never drops. -/
theorem insertByCreatedDesc_perm (r : RefreshTokenRow) (l : List RefreshTokenRow) :
    List.Perm (insertByCreatedDesc r l) (r :: l) := by
  induction l with
  | nil => exact List.Perm.refl _
  | cons x xs ih =>
    unfold insertByCreatedDesc
    split
    · exact List.Perm.refl _
    · exact List.Perm.trans (List.Perm.cons x ih) (List.Perm.swap r x xs)

/-- The sort permutes its input. -/
theorem sortByCreatedDesc_perm (l : List RefreshTokenRow) :
    List.Perm (sortByCreatedDesc l) l := by
  induction l with
  | nil => exact List.Perm.refl _
  | cons x xs ih =>
    exact List.Perm.trans (insertByCreatedDesc_perm x (sortByCreatedDesc xs))
      (List.Perm.cons x ih)

/-- Inserting into a descending-sorted list keeps it descending-sorted. -/
theorem insertByCreatedDesc_pairwise (r : RefreshTokenRow)
    (l : List RefreshTokenRow)
    (h : l.Pairwise (fun a b => b.created_at ≤ a.created_at)) :
    (insertByCreatedDesc r l).Pairwise (fun a b => b.created_at ≤ a.created_at) := by
  induction l with
  | nil => simp [insertByCreatedDesc]
  | cons x xs ih =>
    rcases List.pairwise_cons.1 h with ⟨hx, hxs⟩
    unfold insertByCreatedDesc
    split
    case isTrue hle =>
      refine List.pairwise_cons.2 ⟨?_, h⟩
      intro y hy
      rcases List.mem_cons.1 hy with rfl | hy'
      · exact hle
      · exact Nat.le_trans (hx y hy') hle
    case isFalse hgt =>
      refine List.pairwise_cons.2 ⟨?_, ih hxs⟩
      intro y hy
      rcases List.mem_cons.1 ((insertByCreatedDesc_perm r xs).mem_iff.1 hy) with
        rfl | hy'
      · exact Nat.le_of_lt (Nat.lt_of_not_le hgt)
      · exact hx y hy'

/-- The sort's output is descending in `created_at`. -/
theorem sortByCreatedDesc_pairwise (l : List RefreshTokenRow) :
    (sortByCreatedDesc l).Pairwise (fun a b => b.created_at ≤ a.created_at) := by
  induction l with
  | nil => simp [sortByCreatedDesc]
  | cons x xs ih => exact insertByCreatedDesc_pairwise x (sortByCreatedDesc xs) ih

/-- After `logout db now t`, no unrevoked row carries token `t`: the update
revokes every matching active row and touches nothing else. -/
theorem findActive_logout (db : Db) (now : Nat) (t : String) :
    findActive (logout db now t).1 t = none := by
  unfold findActive logout
  rw [List.find?_eq_none]
  intro x hx
  rcases List.mem_map.1 hx with ⟨r, _, rfl⟩
  by_cases hc : (r.token == t && r.revoked_at.isNone) = true
  · simp only [hc, if_true]
    simp
  · simp only [hc, if_false, Bool.if_false_right]
    simp only [Bool.not_eq_true] at hc
    simp [hc]

/-- Every error path of `refreshTokens` returns before the `UPDATE` and the
`INSERT`, so the store comes back unchanged. -/
theorem refreshTokens_error_unchanged (db : Db) (cfg : ConfigState) (now : Nat)
    (presented ntok nid : String) (ua ip : Option String) (e : String)
    (h : (refreshTokens db cfg now presented ntok nid ua ip).2 = .error e) :
    (refreshTokens db cfg now presented ntok nid ua ip).1 = db := by
  unfold refreshTokens at h ⊢
  cases hf : findActive db presented with
  | none => rfl
  | some stored =>
    rw [hf] at h
    dsimp only at h ⊢
    by_cases hex : stored.expires_at < now
    · rw [if_pos hex]
    · rw [if_neg hex] at h ⊢
      cases hu : findUser db stored.user_id with
      | none => rfl
      | some user =>
        rw [hu] at h
        dsimp only at h
        exact absurd h (by simp)

/-- After a successful rotation of the (unique) row holding token `t`, no
unrevoked row with token `t` remains: the update revoked it and the inserted
row carries the fresh value `ntok ≠ t`. -/
theorem findActive_rotated (db : Db) (now : Nat) (t ntok : String)
    (stored newRow : RefreshTokenRow)
    (hf : findActive db t = some stored)
    (hnodup : (db.refresh_tokens.map (fun r => r.token)).Nodup)
    (hnewtok : newRow.token = ntok) (hne : ntok ≠ t) :
    (revokeById db.refresh_tokens now stored.id ntok ++ [newRow]).find?
      (fun r => r.token == t && r.revoked_at.isNone) = none := by
  have hmem : stored ∈ db.refresh_tokens := List.mem_of_find?_eq_some hf
  have hstok : stored.token = t := by
    have := List.find?_some hf
    simp only [Bool.and_eq_true, beq_iff_eq] at this
    exact this.1
  rw [List.find?_eq_none]
  intro x hx
  rcases List.mem_append.1 hx with hx | hx
  · rcases List.mem_map.1 hx with ⟨r, hr, rfl⟩
    by_cases htok : r.token = t
    · have hrs : r = stored :=
        List.inj_on_of_nodup_map hnodup hr hmem (htok.trans hstok.symm)
      subst hrs
      simp
    · by_cases hid : (r.id == stored.id) = true <;>
        simp [hid, htok]
  · rcases List.mem_singleton.1 hx with rfl
    simp [hnewtok, hne]

/-- While a refresh is in flight, every further caller joins the published
promise and the state does not change. -/
theorem runEnter_inflight (m : Nat) (s : CoordState) (p : Nat)
    (h1 : s.isRefreshing = true) (h2 : s.refreshPromise = some p) :
    runEnter m s = (s, List.replicate m (some p)) := by
  induction m with
  | zero => simp [runEnter]
  | succ m ih =>
    have hstep : enterRefresh true s = (s, some p) := by
      simp [enterRefresh, h1, h2]
    unfold runEnter
    rw [hstep]
    dsimp only
    rw [ih, ← h2]
    simp [List.replicate_succ, h2]

/-- Renaming of the opaque token values (and rotation links) of a store:
used to state that session listing never depends on `tokenValue`. -/
def scrubRow (f : String → String) (r : RefreshTokenRow) : RefreshTokenRow :=
  { r with token := f r.token, replaced_by_token := r.replaced_by_token.map f }

/-- Apply a token renaming to the whole store. -/
def scrubDb (f : String → String) (db : Db) : Db :=
  { db with refresh_tokens := db.refresh_tokens.map (scrubRow f) }

/-- The session `WHERE` clause never reads the token value. -/
theorem sessionActiveFor_scrub (f : String → String) (userId : String) (now : Nat)
    (r : RefreshTokenRow) :
    sessionActiveFor userId now (scrubRow f r) = sessionActiveFor userId now r := rfl

/-- The session projection never reads the token value. -/
theorem toSession_scrub (f : String → String) (r : RefreshTokenRow) :
    toSession (scrubRow f r) = toSession r := rfl

/-- Insertion sorts by `created_at`, which renaming preserves. -/
theorem insertByCreatedDesc_scrub (f : String → String) (r : RefreshTokenRow)
    (l : List RefreshTokenRow) :
    insertByCreatedDesc (scrubRow f r) (l.map (scrubRow f)) =
      (insertByCreatedDesc r l).map (scrubRow f) := by
  induction l with
  | nil => rfl
  | cons x xs ih =>
    have hcx : (scrubRow f x).created_at = x.created_at := rfl
    have hcr : (scrubRow f r).created_at = r.created_at := rfl
    by_cases h : x.created_at ≤ r.created_at <;>
      simp [insertByCreatedDesc, hcx, hcr, h, ih]

/-- Sorting commutes with token renaming. -/
theorem sortByCreatedDesc_scrub (f : String → String) (l : List RefreshTokenRow) :
    sortByCreatedDesc (l.map (scrubRow f)) =
      (sortByCreatedDesc l).map (scrubRow f) := by
  induction l with
  | nil => rfl
  | cons x xs ih =>
    simp only [List.map_cons, sortByCreatedDesc, ih]
    exact insertByCreatedDesc_scrub f x (sortByCreatedDesc xs)

/-- Filtering on the session clause commutes with token renaming. -/
theorem filter_sessionActive_scrub (f : String → String) (userId : String)
    (now : Nat) (l : List RefreshTokenRow) :
    (l.map (scrubRow f)).filter (sessionActiveFor userId now) =
      (l.filter (sessionActiveFor userId now)).map (scrubRow f) := by
  induction l with
  | nil => rfl
  | cons x xs ih =>
    by_cases h : sessionActiveFor userId now x = true
    · simp [List.filter_cons, sessionActiveFor_scrub, h, ih]
    · simp only [Bool.not_eq_true] at h
      simp [List.filter_cons, sessionActiveFor_scrub, h, ih]

/-!
## Concrete stores used by witnesses, counterexamples and failing inputs
-/

/-- A store with one user and one active refresh token `"t0"` expiring at
`1000`. -/
def oneTokenRow : RefreshTokenRow :=
  { id := "r0", user_id := "u1", token := "t0", expires_at := 1000,
    created_at := 0, revoked_at := none, replaced_by_token := none,
    user_agent := none, ip_address := none }

/-- One user, one active token. -/
def oneTokenDb : Db :=
  { users := [{ id := "u1", email := "u1@example.com" }]
    refresh_tokens := [oneTokenRow] }

/-- The owner row of `oneTokenDb`. -/
def oneTokenUser : UserRow := { id := "u1", email := "u1@example.com" }

/-- The single row of `atExpiryDb`: expires exactly at instant `100`. -/
def atExpiryRow : RefreshTokenRow :=
  { id := "r0", user_id := "u1", token := "t0", expires_at := 100,
    created_at := 0, revoked_at := none, replaced_by_token := none,
    user_agent := none, ip_address := none }

/-- Store whose single active token expires exactly at instant `100`. -/
def atExpiryDb : Db :=
  { users := [{ id := "u1", email := "u1@example.com" }]
    refresh_tokens := [atExpiryRow] }

/-- The single (expired) row of `justExpiredDb`:
expired one second before instant `100000` (`expiresAt = now - 1s`). -/
def justExpiredRow : RefreshTokenRow :=
  { id := "r0", user_id := "u1", token := "t0", expires_at := 99000,
    created_at := 0, revoked_at := none, replaced_by_token := none,
    user_agent := none, ip_address := none }

/-- Store whose single active token expired one second ago. -/
def justExpiredDb : Db :=
  { users := [{ id := "u1", email := "u1@example.com" }]
    refresh_tokens := [justExpiredRow] }

/-- An active token whose owning user row has been deleted. -/
def orphanTokenDb : Db :=
  { users := [], refresh_tokens := [oneTokenRow] }

/-- Store state after write phase 1 of the interleaved schedule. -/
def c2AfterWrite1 : Db :=
  refreshWritePhase oneTokenDb repoConfig 100 oneTokenRow oneTokenUser
    "t1" "i1" none none

/-- Store state after write phase 2 of the interleaved schedule
(read₁, read₂, write₁, write₂). -/
def c2AfterWrite2 : Db :=
  refreshWritePhase c2AfterWrite1 repoConfig 100 oneTokenRow oneTokenUser
    "t2" "i2" none none

/-!
## The claims
-/

/-- C2. Two concurrent `refresh("t0")` calls against a store holding one
active token: under the interleaving read₁, read₂, write₁, write₂ (each
`await this.db...` of `refreshTokens` is a separate atomic step, and by
`refreshTokens_phases` a call's outcome is `.ok` as soon as its read phase
is), *both* calls pass validation against the pre-write store, both perform
their revoke+insert write phase, and the final store holds *two* active
successor tokens — the claimed "exactly one success, the other
`TokenReuseDetected`/`InvalidToken`" does not hold, because the `UPDATE ...
WHERE id = ?` of the write phase is not conditioned on the presented token
still being active at write time. -/
theorem interleaved_refreshes_both_succeed :
    refreshReadPhase oneTokenDb 100 "t0" = .ok (oneTokenRow, oneTokenUser)
    ∧ countActive oneTokenDb = 1
    ∧ countActive c2AfterWrite2 = 2
    ∧ (findActive c2AfterWrite2 "t1").isSome = true
    ∧ (findActive c2AfterWrite2 "t2").isSome = true
    ∧ (findActive c2AfterWrite2 "t0").isSome = false := by
  exact ⟨rfl, rfl, rfl, rfl, rfl, rfl⟩

/-- C6 counterexample. The claim says a matched token with
`expiresAt ≤ now` — in particular `expiresAt = now` — is rejected as
`ExpiredToken`; but the source's check is the strict
`new Date(stored.expires_at) < new Date()`, so at `expiresAt = now = 100`
the refresh *succeeds* and rotates the token instead. -/
theorem expiry_boundary_not_rejected :
    refreshSucceeded
      (refreshTokens atExpiryDb repoConfig 100 "t0" "t1" "i1" none none).2 =
      true := by
  decide

/-- C6 (amended). `refresh` fails with `ExpiredToken` (message
`'Refresh token expired'`) exactly when the presented token matches a stored
unrevoked row whose `expires_at` is *strictly* below `now` (so
`expiresAt = now - 1s` is rejected but `expiresAt = now` is not), and a
matched row with `expires_at ≥ now` whose owning user exists is rotated into
a new pair. -/
theorem expired_token_check_strict (db : Db) (cfg : ConfigState) (now : Nat)
    (presented ntok nid : String) (ua ip : Option String) :
    ((refreshTokens db cfg now presented ntok nid ua ip).2 =
        .error "Refresh token expired" ↔
      ∃ stored, findActive db presented = some stored ∧ stored.expires_at < now)
    ∧ (∀ stored, findActive db presented = some stored →
        ¬ stored.expires_at < now →
        (findUser db stored.user_id).isSome = true →
        refreshSucceeded (refreshTokens db cfg now presented ntok nid ua ip).2 =
          true) := by
  constructor
  · constructor
    · intro h
      unfold refreshTokens at h
      cases hf : findActive db presented with
      | none =>
        rw [hf] at h
        dsimp only at h
        injection h with h'
        exact absurd h' (by decide)
      | some stored =>
        rw [hf] at h
        dsimp only at h
        by_cases hex : stored.expires_at < now
        · exact ⟨stored, rfl, hex⟩
        · rw [if_neg hex] at h
          cases hu : findUser db stored.user_id with
          | none =>
            rw [hu] at h
            dsimp only at h
            injection h with h'
            exact absurd h' (by decide)
          | some u =>
            rw [hu] at h
            dsimp only at h
            exact absurd h (by simp)
    · rintro ⟨stored, hf, hex⟩
      unfold refreshTokens
      rw [hf]
      dsimp only
      rw [if_pos hex]
  · intro stored hf hex hsome
    unfold refreshTokens
    rw [hf]
    dsimp only
    rw [if_neg hex]
    rcases Option.isSome_iff_exists.1 hsome with ⟨u, hu⟩
    rw [hu]
    simp [refreshSucceeded]

/-- C6 witness: a token with `expiresAt = now - 1s` (99 000 ms vs
`now = 100000` ms) is rejected as expired. -/
theorem expired_token_check_strict_witness :
    (refreshTokens justExpiredDb repoConfig 100000 "t0" "t1" "i1"
        none none).2 = .error "Refresh token expired" :=
  (expired_token_check_strict justExpiredDb repoConfig 100000 "t0" "t1" "i1"
      none none).1.mpr ⟨justExpiredRow, by decide, by decide⟩

/-- C7. `logout` is idempotent and never errors: for every store and every
presented token — active, already revoked, or unknown — it returns the same
`{success: true}` body, and running it a second time (at any later instant)
changes neither the store nor the response. -/
theorem logout_idempotent_always_succeeds (db : Db) (now now2 : Nat)
    (t : String) :
    (logout db now t).2 = { success := true, message := "Logged out successfully" }
    ∧ (logout (logout db now t).1 now2 t).1 = (logout db now t).1
    ∧ (logout (logout db now t).1 now2 t).2 = (logout db now t).2 := by
  refine ⟨rfl, ?_, rfl⟩
  unfold logout
  dsimp only
  rw [List.map_map]
  congr 1
  apply List.map_congr_left
  intro r _
  by_cases hc : (r.token == t && r.revoked_at.isNone) = true
  · simp [Function.comp, hc]
  · simp only [Bool.not_eq_true] at hc
    simp [Function.comp, hc]

/-- C9. Under the repository configuration (which defines none of the three
`jwt` TTL keys, so the defaults `'15m'`, `900`, 7 days apply), every
issuance via `generateTokenPair` — the path shared by login, register and
Google OAuth — returns an access token whose embedded `exp` is the issuance
second plus 900 = `expiresIn` seconds, and persists the refresh token with
`expires_at` = issuance time + `refreshExpiresIn * 1000` ms, with
`refreshExpiresIn = 604800` (7 days). -/
theorem issue_pair_ttls (db : Db) (now : Nat)
    (userId email tokenValue rowId : String) (ua ip : Option String) :
    generateTokenPair db repoConfig now userId email tokenValue rowId ua ip =
      ({ db with refresh_tokens := db.refresh_tokens ++
          [{ id := rowId, user_id := userId, token := tokenValue,
             expires_at := now + 604800 * 1000, created_at := now,
             revoked_at := none, replaced_by_token := none,
             user_agent := ua, ip_address := ip }] },
       { accessToken := { userId := userId, email := email, iat := now / 1000,
                          exp := now / 1000 + 900 }
         refreshToken := tokenValue
         expiresIn := 900
         refreshExpiresIn := 604800 }) := by
  have h15 : (parseDuration "15m").getD 0 / 1000 = 900 := by decide
  simp [generateTokenPair, generateAccessToken, generateRefreshToken,
    getTokenExpiryInfo, repoConfig, refreshMs, h15]

/-- C10. `refreshTokens` is all-or-nothing on failure: every error path
(`Invalid refresh token`, `Refresh token expired`, `User not found`) returns
before the `UPDATE`/`INSERT`, leaving the store untouched; in particular an
active token whose owning user row is gone yields `'User not found'` with
the presented token still active in the unchanged store. -/
theorem refresh_failure_leaves_store_unchanged (db : Db) (cfg : ConfigState)
    (now : Nat) (presented ntok nid : String) (ua ip : Option String) :
    (∀ e, (refreshTokens db cfg now presented ntok nid ua ip).2 = .error e →
      (refreshTokens db cfg now presented ntok nid ua ip).1 = db)
    ∧ (∀ stored, findActive db presented = some stored →
        ¬ stored.expires_at < now →
        findUser db stored.user_id = none →
        refreshTokens db cfg now presented ntok nid ua ip =
          (db, .error "User not found")) := by
  constructor
  · intro e h
    exact refreshTokens_error_unchanged db cfg now presented ntok nid ua ip e h
  · intro stored hf hex hu
    unfold refreshTokens
    rw [hf]
    dsimp only
    rw [if_neg hex, hu]

/-- C10 witness: deleting the user of `oneTokenDb` and refreshing its still
active token fails with `'User not found'` and leaves the store unchanged —
the token is still active afterwards. -/
theorem refresh_failure_leaves_store_unchanged_witness :
    refreshTokens orphanTokenDb repoConfig 100 "t0" "t1" "i1" none none =
      (orphanTokenDb, .error "User not found") :=
  (refresh_failure_leaves_store_unchanged orphanTokenDb repoConfig 100 "t0"
      "t1" "i1" none none).2 oneTokenRow (by decide) (by decide) (by decide)

/-- C1. A revoked token never refreshes again, and the failed attempt has no
side effects: (a) after `logout db now1 t`, any later `refresh(t)` fails with
the unauthorized `'Invalid refresh token'` and returns the store unchanged —
no row revoked, no row inserted, no access token minted; (b) after a
successful `refresh(t)` rotated `t` away (with a fresh successor value
`ntok ≠ t`; token values are unique per the column's `UNIQUE` constraint),
presenting `t` again fails the same way and leaves the rotated store
unchanged. -/
theorem revoked_token_refresh_fails (db : Db) (cfg cfg2 : ConfigState)
    (now1 now2 : Nat) (t ntok nid ntok2 nid2 : String)
    (ua ip ua2 ip2 : Option String) :
    (refreshTokens (logout db now1 t).1 cfg2 now2 t ntok2 nid2 ua2 ip2 =
      ((logout db now1 t).1, .error "Invalid refresh token"))
    ∧ (∀ db' pair,
        refreshTokens db cfg now1 t ntok nid ua ip = (db', .ok pair) →
        ntok ≠ t →
        (db.refresh_tokens.map (fun r => r.token)).Nodup →
        refreshTokens db' cfg2 now2 t ntok2 nid2 ua2 ip2 =
          (db', .error "Invalid refresh token")) := by
  constructor
  · unfold refreshTokens
    rw [findActive_logout]
  · intro db' pair hok hne hnodup
    unfold refreshTokens at hok
    cases hf : findActive db t with
    | none =>
      rw [hf] at hok
      exact absurd (congrArg Prod.snd hok) (by simp)
    | some stored =>
      rw [hf] at hok
      dsimp only at hok
      by_cases hex : stored.expires_at < now1
      · rw [if_pos hex] at hok
        exact absurd (congrArg Prod.snd hok) (by simp)
      · rw [if_neg hex] at hok
        cases hu : findUser db stored.user_id with
        | none =>
          rw [hu] at hok
          exact absurd (congrArg Prod.snd hok) (by simp)
        | some user =>
          rw [hu] at hok
          dsimp only at hok
          rw [Prod.mk.injEq] at hok
          obtain ⟨h1, _⟩ := hok
          have hnone : findActive db' t = none := by
            rw [← h1]
            unfold findActive
            dsimp only
            exact findActive_rotated db now1 t ntok stored _ hf hnodup rfl hne
          unfold refreshTokens
          rw [hnone]

/-- The store after rotating `oneTokenDb`'s token at instant 100: the old
row revoked with `replaced_by_token = "t1"`. -/
def rotatedRow0 : RefreshTokenRow :=
  { id := "r0", user_id := "u1", token := "t0", expires_at := 1000,
    created_at := 0, revoked_at := some 100, replaced_by_token := some "t1",
    user_agent := none, ip_address := none }

/-- The successor row inserted by that rotation. -/
def rotatedNewRow : RefreshTokenRow :=
  { id := "i1", user_id := "u1", token := "t1",
    expires_at := 100 + 604800000, created_at := 100, revoked_at := none,
    replaced_by_token := none, user_agent := none, ip_address := none }

/-- `oneTokenDb` after one successful `refresh("t0")` at instant 100. -/
def rotatedDb : Db :=
  { users := [{ id := "u1", email := "u1@example.com" }]
    refresh_tokens := [rotatedRow0, rotatedNewRow] }

/-- The pair returned by that rotation. -/
def rotatedPair : TokenPairOut :=
  { accessToken := { userId := "u1", email := "u1@example.com", iat := 0,
                     exp := 900 }
    refreshToken := "t1", expiresIn := 900, refreshExpiresIn := 604800 }

/-- C1 witness: rotate `"t0"` away in `oneTokenDb`, then present `"t0"`
again — rejected with `'Invalid refresh token'`, store unchanged. -/
theorem revoked_token_refresh_fails_witness :
    refreshTokens rotatedDb repoConfig 200 "t0" "t2" "i2" none none =
      (rotatedDb, .error "Invalid refresh token") :=
  (revoked_token_refresh_fails oneTokenDb repoConfig repoConfig 100 200 "t0"
      "t1" "i1" "t2" "i2" none none none none).2 rotatedDb rotatedPair
    (by rfl) (by decide) (by decide)

/-- After `logoutAll`, no row of the user passes the session `WHERE` clause
at any instant. -/
theorem logoutAll_kills_sessions (db : Db) (revNow now2 : Nat)
    (userId : String) :
    (logoutAll db revNow userId).1.refresh_tokens.filter
      (sessionActiveFor userId now2) = [] := by
  unfold logoutAll
  dsimp only
  rw [List.filter_eq_nil_iff]
  intro x hx
  rcases List.mem_map.1 hx with ⟨r, _, rfl⟩
  cases ha : r.user_id == userId <;> cases hb : r.revoked_at.isNone <;>
    simp [sessionActiveFor, ha, hb]

/-- C8. `getActiveSessions userId` returns exactly the user's active
refresh-token rows (unrevoked and with `expires_at > now`), newest first by
creation time, through a projection whose output is invariant under any
renaming of the opaque token values (it never exposes `tokenValue`), and
after `logoutAll userId` (the `revokeAll`) it is empty. -/
theorem active_sessions_spec (db : Db) (now now2 revNow : Nat)
    (userId : String) (f : String → String) :
    (∀ x, x ∈ getActiveSessions db now userId ↔
      ∃ r, r ∈ db.refresh_tokens ∧ r.user_id = userId ∧ r.revoked_at = none ∧
        now < r.expires_at ∧ x = toSession r)
    ∧ (getActiveSessions db now userId).Pairwise
        (fun a b => b.createdAt ≤ a.createdAt)
    ∧ getActiveSessions (scrubDb f db) now userId =
        getActiveSessions db now userId
    ∧ getActiveSessions (logoutAll db revNow userId).1 now2 userId = [] := by
  refine ⟨?_, ?_, ?_, ?_⟩
  · intro x
    unfold getActiveSessions
    rw [List.mem_map]
    constructor
    · rintro ⟨r, hr, rfl⟩
      have hr2 := (sortByCreatedDesc_perm _).mem_iff.1 hr
      rcases List.mem_filter.1 hr2 with ⟨hmem, hp⟩
      simp only [sessionActiveFor, Bool.and_eq_true, beq_iff_eq,
        Option.isNone_iff_eq_none, decide_eq_true_eq] at hp
      exact ⟨r, hmem, hp.1.1, hp.1.2, hp.2, rfl⟩
    · rintro ⟨r, hmem, h1, h2, h3, rfl⟩
      refine ⟨r, ?_, rfl⟩
      rw [(sortByCreatedDesc_perm _).mem_iff, List.mem_filter]
      refine ⟨hmem, ?_⟩
      simp [sessionActiveFor, h1, h2, h3]
  · have hs := sortByCreatedDesc_pairwise
      (db.refresh_tokens.filter (sessionActiveFor userId now))
    unfold getActiveSessions
    exact hs.map toSession (fun a b h => h)
  · unfold getActiveSessions scrubDb
    dsimp only
    rw [filter_sessionActive_scrub, sortByCreatedDesc_scrub, List.map_map]
    apply List.map_congr_left
    intro r _
    exact toSession_scrub f r
  · unfold getActiveSessions
    rw [logoutAll_kills_sessions]
    rfl

/-- C3 counterexample. The claim states the presented token's
`replacedByTokenId` is set to the successor token's *id*; but after one
rotation the old row's `replaced_by_token` holds the successor's opaque
token *value* (`"t1"`), while the successor row's id is the independent
fresh uuid `"i1"` — the two differ. -/
theorem rotation_link_not_row_id :
    ((refreshTokens oneTokenDb repoConfig 100 "t0" "t1" "i1" none
        none).1.refresh_tokens.find? (fun r => r.id == "r0")).map
      (fun r => r.replaced_by_token) = some (some "t1")
    ∧ ((refreshTokens oneTokenDb repoConfig 100 "t0" "t1" "i1" none
        none).1.refresh_tokens.find? (fun r => r.token == "t1")).map
      (fun r => r.id) = some "i1"
    ∧ some (some "t1") ≠ some (some ("i1" : String)) := by
  exact ⟨rfl, rfl, by decide⟩

/-- C3 (amended). On every successful `refresh`, the presented token's row
is revoked with `replaced_by_token` set to the freshly generated successor
*token value*, and one new row is inserted. After `N` sequential successful
refreshes from a store holding one user and one active token (`chainRun`),
the store is exactly `chainDb N`: exactly one row is active (the newest),
the other `N` are revoked, each revoked row `i` links to its successor by
the successor's token value, every row with `replaced_by_token` set is
revoked, and the chain has `N + 1` rows in total. -/
theorem rotation_chain_integrity (uid email : String) (tok rid : Nat → String)
    (e0 now : Nat) (cfg : ConfigState) (ua ip : Option String) (N : Nat)
    (hrid : ∀ i, i ≤ N → ∀ j, j ≤ N → i ≠ j → rid i ≠ rid j)
    (hexp : ¬ e0 < now) :
    chainRun uid email tok rid e0 now cfg ua ip N =
      (chainDb uid email tok rid e0 now cfg ua ip N, true)
    ∧ (chainDb uid email tok rid e0 now cfg ua ip N).refresh_tokens.filter
        (fun r => r.revoked_at.isNone) =
      [chainActive uid tok rid e0 now cfg ua ip N]
    ∧ ((chainDb uid email tok rid e0 now cfg ua ip N).refresh_tokens.filter
        (fun r => r.revoked_at.isSome)).length = N
    ∧ (∀ i, i < N →
        chainRevoked uid tok rid e0 now cfg ua ip i ∈
          (chainDb uid email tok rid e0 now cfg ua ip N).refresh_tokens
        ∧ (chainRevoked uid tok rid e0 now cfg ua ip i).replaced_by_token =
            some ((chainActive uid tok rid e0 now cfg ua ip (i + 1)).token))
    ∧ (∀ x ∈ (chainDb uid email tok rid e0 now cfg ua ip N).refresh_tokens,
        x.replaced_by_token.isSome = true → x.revoked_at.isSome = true)
    ∧ (chainDb uid email tok rid e0 now cfg ua ip N).refresh_tokens.length =
        N + 1 := by
  refine ⟨chainRun_eq uid email tok rid e0 now cfg ua ip N hrid hexp N
    le_rfl, ?_, ?_, ?_, ?_, ?_⟩
  · unfold chainDb
    dsimp only
    rw [List.filter_append]
    have h1 : ((List.range N).map
        (chainRevoked uid tok rid e0 now cfg ua ip)).filter
        (fun r => r.revoked_at.isNone) = [] := by
      rw [List.filter_eq_nil_iff]
      intro x hx
      rcases List.mem_map.1 hx with ⟨i, _, rfl⟩
      simp [chainRevoked]
    rw [h1]
    simp [chainActive]
  · unfold chainDb
    dsimp only
    rw [List.filter_append]
    have h1 : ((List.range N).map
        (chainRevoked uid tok rid e0 now cfg ua ip)).filter
        (fun r => r.revoked_at.isSome) =
        (List.range N).map (chainRevoked uid tok rid e0 now cfg ua ip) := by
      rw [List.filter_eq_self]
      intro x hx
      rcases List.mem_map.1 hx with ⟨i, _, rfl⟩
      simp [chainRevoked]
    rw [h1]
    simp [chainActive]
  · intro i hi
    constructor
    · unfold chainDb
      dsimp only
      exact List.mem_append.2 (Or.inl (List.mem_map.2
        ⟨i, List.mem_range.2 hi, rfl⟩))
    · rfl
  · intro x hx h
    unfold chainDb at hx
    dsimp only at hx
    rcases List.mem_append.1 hx with hx | hx
    · rcases List.mem_map.1 hx with ⟨i, _, rfl⟩
      simp [chainRevoked]
    · rcases List.mem_singleton.1 hx with rfl
      simp [chainActive] at h
  · unfold chainDb
    dsimp only
    simp

/-- Token-value supply for the chain witness. -/
def chainTok (i : Nat) : String := "t" ++ toString i

/-- Row-id supply for the chain witness. -/
def chainRid (i : Nat) : String := "r" ++ toString i

/-- C3 witness: two sequential refreshes from one token, all succeeding,
yielding exactly the two-step chain store. -/
theorem rotation_chain_integrity_witness :
    chainRun "u1" "u1@example.com" chainTok chainRid 50 10 repoConfig none
        none 2 =
      (chainDb "u1" "u1@example.com" chainTok chainRid 50 10 repoConfig none
        none 2, true) :=
  (rotation_chain_integrity "u1" "u1@example.com" chainTok chainRid 50 10
      repoConfig none none 2 (by decide) (by decide)).1

/-- C4. Single-flight refresh coordination: from an idle coordinator, `k ≥ 1`
callers that reach `refreshAccessToken` (each holding a refresh token) while
the first call is still in flight trigger exactly one network refresh call,
and every caller awaits the very same promise; the `finally` cleanup clears
the in-flight flag and the shared promise for *every* outcome (2xx, non-2xx,
thrown exception) — failures hand `false` to all waiters and clear the local
tokens — and a subsequent caller can then trigger a fresh network call. -/
theorem single_flight_refresh (s0 : CoordState) (k : Nat)
    (h0 : s0.isRefreshing = false) (hk : 1 ≤ k) :
    (runEnter k s0).1.networkCalls = s0.networkCalls + 1
    ∧ (runEnter k s0).2 = List.replicate k (some s0.nextId)
    ∧ (∀ res : RefreshNetResult, ∀ st : ClientStorage, ∀ now : Int,
        (completeRefresh res st now (runEnter k s0).1).2.isRefreshing = false
        ∧ (completeRefresh res st now (runEnter k s0).1).2.refreshPromise =
            none
        ∧ (res.succeeded = false →
            completeRefresh res st now (runEnter k s0).1 =
              ((false, clearTokens st), settleRefresh (runEnter k s0).1)))
    ∧ (enterRefresh true (settleRefresh (runEnter k s0).1)).1.networkCalls =
        s0.networkCalls + 2 := by
  obtain ⟨j, rfl⟩ : ∃ j, k = j + 1 := ⟨k - 1, (Nat.succ_pred_eq_of_pos hk).symm⟩
  have hstep : enterRefresh true s0 =
      ({ isRefreshing := true, refreshPromise := some s0.nextId,
         networkCalls := s0.networkCalls + 1, nextId := s0.nextId + 1 },
       some s0.nextId) := by
    simp [enterRefresh, h0]
  have hrun : runEnter (j + 1) s0 =
      ({ isRefreshing := true, refreshPromise := some s0.nextId,
         networkCalls := s0.networkCalls + 1, nextId := s0.nextId + 1 },
       List.replicate (j + 1) (some s0.nextId)) := by
    unfold runEnter
    rw [hstep]
    dsimp only
    rw [runEnter_inflight j _ s0.nextId rfl rfl]
    simp [List.replicate_succ]
  refine ⟨?_, ?_, ?_, ?_⟩
  · rw [hrun]
  · rw [hrun]
  · intro res st now
    refine ⟨rfl, rfl, ?_⟩
    intro hres
    cases res with
    | ok a r e => simp [RefreshNetResult.succeeded] at hres
    | httpFail => rfl
    | netThrow => rfl
  · rw [hrun]
    simp [settleRefresh, enterRefresh]

/-- An idle client coordinator. -/
def idleCoord : CoordState :=
  { isRefreshing := false, refreshPromise := none, networkCalls := 0,
    nextId := 0 }

/-- C4 witness: three concurrent callers from idle — one network call, and
all three await promise 0. -/
theorem single_flight_refresh_witness :
    (runEnter 3 idleCoord).1.networkCalls = 1
    ∧ (runEnter 3 idleCoord).2 = List.replicate 3 (some 0) := by
  have h := single_flight_refresh idleCoord 3 rfl (by decide)
  exact ⟨h.1, h.2.1⟩

/-- In every branch of `setTokens` the canonical access-token key holds the
new value, so the retried request reads it. -/
theorem getAccessToken_setTokens (s : ClientStorage) (a r : String)
    (e : Option Nat) (now : Int) :
    getAccessToken (setTokens s a r e now) = some a := by
  unfold setTokens getAccessToken
  cases e with
  | none => rfl
  | some n =>
    by_cases hn : n ≠ 0 <;> simp [hn]

/-- C5. `apiRequest` (authenticated, first invocation, cached token not
proactively expired): (a) a 401 first response followed by a successful
coordinated refresh retries exactly once, attaching the *new* access token,
and a 2xx retry response reaches the caller as success — the intermediate
401 is never exposed; (b) a second consecutive 401 is surfaced as a thrown
401 `ApiError` after exactly two attempts — no third attempt; (c) a failed
refresh surfaces the 401 `'Session expired. Please login again.'` error
after the single first attempt, with local tokens cleared; (d) a 2xx first
response returns success after exactly one attempt, with no refresh. -/
theorem apiRequest_retry_once (s : ClientStorage) (now : Int) (env : ApiEnv)
    (rt a r : String) (e : Option Nat)
    (hNoPro : (hasTokens s && isTokenExpired s now) = false)
    (hrt : getRefreshToken s = some rt) :
    (env.status 0 = 401 → env.refreshResult = .ok a r e →
      respOk (env.status 1) = true →
      apiRequestM s now env =
        ({ result := .success (some a), sent := [getAccessToken s, some a] },
         setTokens s a r e now))
    ∧ (env.status 0 = 401 → env.refreshResult = .ok a r e →
        env.status 1 = 401 →
        apiRequestM s now env =
          ({ result := .apiError "Request failed" 401,
             sent := [getAccessToken s, some a] },
           setTokens s a r e now))
    ∧ (env.status 0 = 401 → env.refreshResult.succeeded = false →
        apiRequestM s now env =
          ({ result := .apiError "Session expired. Please login again." 401,
             sent := [getAccessToken s] },
           clearTokens s))
    ∧ (respOk (env.status 0) = true →
        apiRequestM s now env =
          ({ result := .success (getAccessToken s),
             sent := [getAccessToken s] }, s)) := by
  refine ⟨?_, ?_, ?_, ?_⟩
  · intro h0 hok h1
    simp [apiRequestM, apiRequestSend, apiSendRetry, refreshOnce,
      runRefreshNet, hNoPro, hrt, h0, hok, h1, getAccessToken_setTokens]
  · intro h0 hok h1
    simp [apiRequestM, apiRequestSend, apiSendRetry, refreshOnce,
      runRefreshNet, hNoPro, hrt, h0, hok, h1, getAccessToken_setTokens,
      respOk]
  · intro h0 hfail
    cases hres : env.refreshResult with
    | ok a2 r2 e2 =>
      rw [hres] at hfail
      simp [RefreshNetResult.succeeded] at hfail
    | httpFail =>
      simp [apiRequestM, apiRequestSend, refreshOnce, runRefreshNet, hNoPro,
        hrt, h0, hres]
    | netThrow =>
      simp [apiRequestM, apiRequestSend, refreshOnce, runRefreshNet, hNoPro,
        hrt, h0, hres]
  · intro hok0
    have h401 : (env.status 0 == 401) = false := by
      cases hb : env.status 0 == 401 with
      | false => rfl
      | true =>
        exfalso
        have heq : env.status 0 = 401 := by simpa using hb
        rw [heq] at hok0
        simp [respOk] at hok0
    simp [apiRequestM, apiRequestSend, hNoPro, h401, hok0]

/-- Client storage holding a fresh (unexpired) token pair. -/
def c5Storage : ClientStorage :=
  { accessToken := some "A", refreshToken := some "R",
    tokenExpiry := some 999999, legacyToken := some "A" }

/-- Network answering 401 to the first attempt, 200 to the retry, and a
successful refresh. -/
def c5Env : ApiEnv :=
  { refreshResult := .ok "A2" "R2" (some 900)
    status := fun n => if n == 0 then 401 else 200 }

/-- C5 witness: a 401 then a coordinated refresh then a successful retry
carrying the new token — the caller sees success. -/
theorem apiRequest_retry_once_witness :
    apiRequestM c5Storage 0 c5Env =
      ({ result := .success (some "A2"), sent := [some "A", some "A2"] },
       setTokens c5Storage "A2" "R2" (some 900) 0) :=
  (apiRequest_retry_once c5Storage 0 c5Env "R" "A2" "R2" (some 900)
      (by decide) (by decide)).1 rfl rfl (by decide)

end OmniHub







